import Mathlib

/-!
# Command layer of the mesh viewer (`src/bin/vorpaview/commands.cpp`)

A shallow embedding of the command functions of `commands.cpp`.

* The file-level globals (`mesh`, `mesh_gfx`, `show_*`) become the fields of `State`;
  every command is a function `State → State`.
* Calls that leave the file towards the logger, the graphics object and the geometry
  algorithms are recorded, in order, in `State.calls`.
* Geometry algorithms whose code is not in the file (`orient_normals`, `mesh_repair`, ...)
  are taken as parameters, bundled in the structure `GEO`.
* `double` values are rationals (arithmetic is exact, no rounding). `index_t` values are
  natural numbers: meshes are taken within the index range of the library, where vertex
  indices do not wrap around.
-/

namespace Vorpaview

/-- Coordinates of one vertex, as handed to the mesh. -/
abbrev Point := List ℚ

/-- The vertex/edge/facet/cell aggregate `GEO::Mesh`, as far as `commands.cpp` observes it.
Vertices are addressed by their position in `vertices`; an edge is a pair of vertex
indices, a facet and a cell are lists of vertex indices (corners in order). -/
structure Mesh where
  /-- Value of `vertices.dimension()`. -/
  dimension : Nat
  /-- Whether vertex coordinates are stored as `double` (`true`) or `float` (`false`). -/
  double_precision : Bool
  /-- Names of the vertex attributes that are defined. -/
  attributes : List String
  vertices : List Point
  edges : List (Nat × Nat)
  facets : List (List Nat)
  cells : List (List Nat)
deriving DecidableEq

/-- A call that leaves `commands.cpp`, with its arguments. -/
inductive Call where
  /-- Call to `mesh_gfx->set_mesh(mesh)`; carries the mesh contents at the time of the call. -/
  | set_mesh (m : Mesh)
  /-- Message sent to `Logger::err(feature)`. -/
  | log_err (feature message : String)
  /-- Message sent to `Logger::out(feature)`. -/
  | log_out (feature message : String)
  | orient_normals
  | facets_connect
  | mesh_repair (epsilon : ℚ)
  | remove_small_connected_components (min_area : ℚ)
  | fill_holes (max_area : ℚ) (max_edges : Nat)
  | remove_degree3_vertices (max_dist : ℚ)
  | mesh_remove_intersections
  | compute_normals
  | simple_Laplacian_smooth (nb_iter : Nat) (normals_only : Bool)
  | set_anisotropy (s : ℚ)
  | compute_sizing_field (gradation : ℚ) (nb_samples : Nat)
  | remesh_smooth (nb_points dim nb_Lloyd_iter nb_Newton_iter Newton_m : Nat)
deriving DecidableEq

/-- The globals of `commands.cpp` (lines 68-75) together with the record of outgoing calls. -/
structure State where
  mesh : Mesh
  /-- Outgoing calls so far, oldest first. -/
  calls : List Call
  show_vertices : Bool
  show_surface : Bool
  show_volume : Bool
  show_console : Bool
deriving DecidableEq

/-- Geometry algorithms of the library used by the commands; their code is not part of
`commands.cpp`, so they are parameters of the embedding. -/
structure GEO where
  /-- The query `mesh->facets.are_simplices()`: whether the facets are all triangles. -/
  facets_are_simplices : Mesh → Bool
  orient_normals : Mesh → Mesh
  facets_connect : Mesh → Mesh
  bbox_diagonal : Mesh → ℚ
  /-- Total facet area, `Geom::mesh_area(M, dim)`. -/
  mesh_area : Mesh → Nat → ℚ
  mesh_repair : Mesh → ℚ → Mesh
  remove_small_connected_components : Mesh → ℚ → Mesh
  fill_holes : Mesh → ℚ → Nat → Mesh
  remove_degree3_vertices : Mesh → ℚ → Mesh
  mesh_remove_intersections : Mesh → Mesh
  compute_normals : Mesh → Mesh
  simple_Laplacian_smooth : Mesh → Nat → Bool → Mesh
  set_anisotropy : Mesh → ℚ → Mesh
  compute_sizing_field : Mesh → ℚ → Nat → Mesh
  /-- Computes the remesh of its first argument (the output mesh `remesh`). -/
  remesh_smooth : Mesh → Nat → Nat → Nat → Nat → Nat → Mesh

/-- Runs a geometry algorithm on the current mesh and records the call. -/
def State.run (s : State) (c : Call) (f : Mesh → Mesh) : State :=
  { s with mesh := f s.mesh, calls := s.calls ++ [c] }

/-- Records an outgoing call that does not modify the mesh. -/
def State.emit (s : State) (c : Call) : State :=
  { s with calls := s.calls ++ [c] }

/-! ## Mesh primitives of the library -/

/-- Modelled from the spec: `MeshVertices::set_double_precision()`, whose code is not in
`commands.cpp`; switches the vertex storage to double precision. -/
def Mesh.set_double_precision (m : Mesh) : Mesh := { m with double_precision := true }

/-- Modelled from the spec: `MeshVertices::set_single_precision()`, whose code is not in
`commands.cpp`; switches the vertex storage to single precision (the rounding of the
coordinates is not modelled). -/
def Mesh.set_single_precision (m : Mesh) : Mesh := { m with double_precision := false }

/-- Modelled from the spec: `Mesh::clear()`, whose code is not in `commands.cpp`;
"removes all elements from the mesh": the vertices, edges, facets and cells. -/
def Mesh.clear (m : Mesh) : Mesh :=
  { m with vertices := [], edges := [], facets := [], cells := [] }

/-- Modelled from the spec: `mesh->facets.clear()`, whose code is not in `commands.cpp`;
"removes the surfacic part". -/
def Mesh.facets_clear (m : Mesh) : Mesh := { m with facets := [] }

/-- Modelled from the spec: `mesh->edges.clear()`, whose code is not in `commands.cpp`;
"removes mesh edges". -/
def Mesh.edges_clear (m : Mesh) : Mesh := { m with edges := [] }

/-- Modelled from the spec: `mesh->cells.clear()`, whose code is not in `commands.cpp`;
"removes the volumetric part". -/
def Mesh.cells_clear (m : Mesh) : Mesh := { m with cells := [] }

/-- Whether vertex `v` is a corner of some edge, facet or cell. -/
def Mesh.vertex_is_used (m : Mesh) (v : Nat) : Bool :=
  m.edges.any (fun e => e.1 == v || e.2 == v) ||
  m.facets.any (fun f => f.contains v) ||
  m.cells.any (fun c => c.contains v)

/-- Keeps the entries of a list whose index (counted from `k`) satisfies `keep`. -/
def compact {α : Type} (keep : Nat → Bool) : Nat → List α → List α
  | _, [] => []
  | k, x :: xs => if keep k then x :: compact keep (k + 1) xs else compact keep (k + 1) xs

/-- Index, after `compact`, of the entry that had index `v` (indices counted from `k`):
the number of kept entries before it. -/
def new_index {α : Type} (keep : Nat → Bool) : Nat → List α → Nat → Nat
  | _, [], _ => 0
  | k, _ :: xs, v =>
    if v ≤ k then 0 else (if keep k then 1 else 0) + new_index keep (k + 1) xs v

/-- Modelled from the spec: `mesh->vertices.remove_isolated()`, whose code is not in
`commands.cpp`; "removes vertices that are not connected to any element". Vertices are
addressed by position, so the remaining vertices are packed in their previous order and the
corners of the edges, facets and cells are renumbered to follow them. -/
def Mesh.remove_isolated (m : Mesh) : Mesh :=
  let old2new := new_index m.vertex_is_used 0 m.vertices
  { m with
    vertices := compact m.vertex_is_used 0 m.vertices
    edges := m.edges.map (fun e => (old2new e.1, old2new e.2))
    facets := m.facets.map (fun f => f.map old2new)
    cells := m.cells.map (fun c => c.map old2new) }

/-- Corner points of the edges: the geometry of the edges, independent of vertex numbering. -/
def Mesh.edge_points (m : Mesh) : List (Option Point × Option Point) :=
  m.edges.map (fun e => (m.vertices[e.1]?, m.vertices[e.2]?))

/-- Corner points of the facets, facet by facet. -/
def Mesh.facet_points (m : Mesh) : List (List (Option Point)) :=
  m.facets.map (fun f => f.map (fun v => m.vertices[v]?))

/-- Corner points of the cells, cell by cell. -/
def Mesh.cell_points (m : Mesh) : List (List (Option Point)) :=
  m.cells.map (fun c => c.map (fun v => m.vertices[v]?))

/-! ## `namespace MeshCommands` (lines 82-156) -/

namespace MeshCommands

/-- Lines 83-85. -/
def begin (s : State) : State :=
  { s with mesh := s.mesh.set_double_precision }

/-- Lines 87-93. -/
def end_ (G : GEO) (s : State) : State :=
  let s1 :=
    if s.mesh.vertices.length != 0 && s.mesh.cells.length == 0 then
      s.run Call.orient_normals G.orient_normals
    else s
  let s2 := { s1 with mesh := s1.mesh.set_single_precision }
  s2.emit (Call.set_mesh s2.mesh)

/-- Lines 95-101. The C++ default value of `are_you_sure` is `false`. -/
def clear (are_you_sure : Bool) (s : State) : State :=
  if are_you_sure then
    let s1 := { s with mesh := s.mesh.clear }
    let s2 := { s1 with mesh := s1.mesh.set_single_precision }
    s2.emit (Call.set_mesh s2.mesh)
  else s

/-- Lines 103-127. The C++ default value of each flag is `false`. -/
def remove_elements (vertices edges facets cells kill_isolated_vx : Bool) (s : State) : State :=
  let s1 :=
    if vertices then
      { s with mesh := s.mesh.clear }
    else
      let a := if facets then { s with mesh := s.mesh.facets_clear } else s
      let b := if edges then { a with mesh := a.mesh.edges_clear } else a
      let c := if cells then { b with mesh := b.mesh.cells_clear } else b
      if kill_isolated_vx then { c with mesh := c.mesh.remove_isolated } else c
  s1.emit (Call.set_mesh s1.mesh)

end MeshCommands

/-! ## `namespace MeshSurfaceCommands` (lines 192-345) -/

/-- Modelled from the spec: `mesh->vertices.set_dimension(dim)`, whose code is not in
`commands.cpp`; only the stored dimension is modelled. -/
def Mesh.set_dimension (m : Mesh) (dim : Nat) : Mesh := { m with dimension := dim }

/-- Modelled from the spec: `attributes.delete_attribute_store(name)`, whose code is not in
`commands.cpp`; the named vertex attribute is no longer defined. -/
def Mesh.delete_attribute_store (m : Mesh) (name : String) : Mesh :=
  { m with attributes := m.attributes.filter (fun a => a != name) }

/-- Modelled from the spec: `mesh->copy(rhs, true, what)` with all element kinds selected,
whose code is not in `commands.cpp`; the mesh takes the contents of `rhs`. -/
def Mesh.copy (_m rhs : Mesh) : Mesh := rhs

namespace MeshSurfaceCommands
open MeshCommands

/-- Lines 195-242. C++ default arguments: `epsilon = 1e-6`, `min_comp_area = 0.03`,
`max_hole_area = 1e-3`, `max_hole_edges = 2000`, `max_degree3_dist = 0.0`,
`remove_isect = false`. -/
def repair_surface (G : GEO) (epsilon min_comp_area max_hole_area : ℚ) (max_hole_edges : Nat)
    (max_degree3_dist : ℚ) (remove_isect : Bool) (s : State) : State :=
  let s := begin s
  let bbox_diagonal := G.bbox_diagonal s.mesh
  let epsilon := epsilon * (0.01 * bbox_diagonal)
  let area := G.mesh_area s.mesh 3
  let min_comp_area := min_comp_area * area
  let max_hole_area := max_hole_area * area
  let s := s.run (Call.mesh_repair epsilon) (fun m => G.mesh_repair m epsilon)
  let s :=
    if min_comp_area != 0 then
      let nb_f_before : ℚ := s.mesh.facets.length
      let s := s.run (Call.remove_small_connected_components min_comp_area)
        (fun m => G.remove_small_connected_components m min_comp_area)
      let nb_f_removed : ℚ := nb_f_before - s.mesh.facets.length
      if nb_f_removed != 0 then
        s.run (Call.mesh_repair epsilon) (fun m => G.mesh_repair m epsilon)
      else s
    else s
  let s :=
    if max_hole_area != 0 && max_hole_edges != 0 then
      s.run (Call.fill_holes max_hole_area max_hole_edges)
        (fun m => G.fill_holes m max_hole_area max_hole_edges)
    else s
  let s :=
    if max_degree3_dist > 0 then
      let max_degree3_dist := max_degree3_dist * (0.01 * bbox_diagonal)
      s.run (Call.remove_degree3_vertices max_degree3_dist)
        (fun m => G.remove_degree3_vertices m max_degree3_dist)
    else s
  let s :=
    if remove_isect then
      let s := s.emit (Call.log_out "Mesh" "Removing intersections")
      let s := s.run Call.mesh_remove_intersections G.mesh_remove_intersections
      s.emit (Call.log_out "Mesh" "Removed intersections")
    else s
  end_ G s

/-- Lines 256-323. C++ default arguments: `nb_points = 30000`, `tri_shape_adapt = 1.0`,
`tri_size_adapt = 0.0`, `normal_iter = 3`, `Lloyd_iter = 5`, `Newton_iter = 30`,
`Newton_m = 7`, `LFS_samples = 10000`. -/
def remesh_smooth (G : GEO) (nb_points : Nat) (tri_shape_adapt tri_size_adapt : ℚ)
    (normal_iter Lloyd_iter Newton_iter Newton_m LFS_samples : Nat) (s : State) : State :=
  if s.mesh.facets.length == 0 then
    s.emit (Call.log_err "Remesh" "mesh has no facet")
  else if !G.facets_are_simplices s.mesh then
    s.emit (Call.log_err "Remesh" "mesh need to be simplicial, use repair")
  else
    let s := begin s
    let s :=
      if tri_shape_adapt != 0 then
        let tri_shape_adapt := tri_shape_adapt * 0.02
        let s := s.run Call.compute_normals G.compute_normals
        let s :=
          if normal_iter != 0 then
            let s := s.emit (Call.log_out "Nsmooth"
              ("Smoothing normals, " ++ toString normal_iter ++ " iteration(s)"))
            s.run (Call.simple_Laplacian_smooth normal_iter true)
              (fun m => G.simple_Laplacian_smooth m normal_iter true)
          else s
        s.run (Call.set_anisotropy tri_shape_adapt) (fun m => G.set_anisotropy m tri_shape_adapt)
      else
        { s with mesh := s.mesh.set_dimension 3 }
    let s :=
      if tri_size_adapt != 0 then
        s.run (Call.compute_sizing_field tri_size_adapt LFS_samples)
          (fun m => G.compute_sizing_field m tri_size_adapt LFS_samples)
      else if s.mesh.attributes.contains "weight" then
        { s with mesh := s.mesh.delete_attribute_store "weight" }
      else s
    let remesh := G.remesh_smooth s.mesh nb_points 0 Lloyd_iter Newton_iter Newton_m
    let s := s.emit (Call.remesh_smooth nb_points 0 Lloyd_iter Newton_iter Newton_m)
    let s := { s with mesh := s.mesh.clear }
    let s := { s with mesh := s.mesh.copy remesh }
    end_ G s

end MeshSurfaceCommands

/-! ## `namespace MeshShapesCommands` (lines 347-446) -/

/-- Modelled from the spec: `M.vertices.create_vertex(coords)`, whose code is not in
`commands.cpp`; appends one vertex with the given coordinates and returns its index.
The vertex is stored as the coordinates handed over (three, from a `vec3`). -/
def Mesh.create_vertex (m : Mesh) (coords : Point) : Mesh × Nat :=
  ({ m with vertices := m.vertices ++ [coords] }, m.vertices.length)

/-- Modelled from the spec: `M.vertices.create_vertices(nb)`, whose code is not in
`commands.cpp`; appends `nb` vertices (coordinates zero) and returns the index of the
first one. -/
def Mesh.create_vertices (m : Mesh) (nb : Nat) : Mesh × Nat :=
  ({ m with vertices := m.vertices ++ List.replicate nb [0, 0, 0] }, m.vertices.length)

/-- Modelled from the spec: assignment to `Geom::mesh_vertex_ref(M, v)`, whose code is not
in `commands.cpp`; overwrites the coordinates of vertex `v`. -/
def Mesh.set_vertex (m : Mesh) (v : Nat) (p : Point) : Mesh :=
  { m with vertices := m.vertices.set v p }

/-- Modelled from the spec: `M.facets.create_quad(a, b, c, d)`, whose code is not in
`commands.cpp`; appends one facet with these four corners, in this order. -/
def Mesh.create_quad (m : Mesh) (a b c d : Nat) : Mesh :=
  { m with facets := m.facets ++ [[a, b, c, d]] }

/-- Modelled from the spec: `M.facets.create_triangle(a, b, c)`, whose code is not in
`commands.cpp`; appends one facet with these three corners, in this order. -/
def Mesh.create_triangle (m : Mesh) (a b c : Nat) : Mesh :=
  { m with facets := m.facets ++ [[a, b, c]] }

namespace MeshShapesCommands
open MeshCommands

/-- Lines 362-376 of `create_cube`: the eight `create_vertex` calls followed by the six
`create_quad` calls. -/
def create_cube_elements (x1 y1 z1 x2 y2 z2 : ℚ) (M : Mesh) : Mesh :=
  let (M, v0) := M.create_vertex [x1, y1, z1]
  let (M, v1) := M.create_vertex [x1, y1, z2]
  let (M, v2) := M.create_vertex [x1, y2, z1]
  let (M, v3) := M.create_vertex [x1, y2, z2]
  let (M, v4) := M.create_vertex [x2, y1, z1]
  let (M, v5) := M.create_vertex [x2, y1, z2]
  let (M, v6) := M.create_vertex [x2, y2, z1]
  let (M, v7) := M.create_vertex [x2, y2, z2]
  let M := M.create_quad v3 v7 v6 v2
  let M := M.create_quad v0 v1 v3 v2
  let M := M.create_quad v1 v5 v7 v3
  let M := M.create_quad v5 v4 v6 v7
  let M := M.create_quad v0 v4 v5 v1
  let M := M.create_quad v2 v6 v4 v0
  M

/-- Lines 350-380. C++ default arguments: `(0,0,0)` and `(1,1,1)`. -/
def create_cube (G : GEO) (x1 y1 z1 x2 y2 z2 : ℚ) (s : State) : State :=
  let s := begin s
  if s.mesh.dimension < 3 then
    s.emit (Call.log_err "Mesh" "Dimension smaller than 3")
  else
    let s := { s with mesh := create_cube_elements x1 y1 z1 x2 y2 z2 s.mesh }
    let s := s.run Call.facets_connect G.facets_connect
    end_ G s

/-- Lines 391-404: the table `points`. -/
def points : List ℚ := [
  0,          0.0,       1.175571,
  1.051462,   0.0,       0.5257311,
  0.3249197,  1.0,       0.5257311,
  -0.8506508, 0.618034,  0.5257311,
  -0.8506508, -0.618034, 0.5257311,
  0.3249197,  -1.0,      0.5257311,
  0.8506508,  0.618034,  -0.5257311,
  0.8506508,  -0.618034, -0.5257311,
  -0.3249197,  1.0,      -0.5257311,
  -1.051462,   0.0,      -0.5257311,
  -0.3249197, -1.0,      -0.5257311,
  0.0,         0.0,      -1.175571]

/-- Lines 406-427: the table `facets`. -/
def facets : List Nat := [
  0,1,2,
  0,2,3,
  0,3,4,
  0,4,5,
  0,5,1,
  1,5,7,
  1,7,6,
  1,6,2,
  2,6,8,
  2,8,3,
  3,8,9,
  3,9,4,
  4,9,10,
  4,10,5,
  5,10,7,
  6,7,11,
  6,11,8,
  7,10,11,
  8,11,9,
  9,11,10]

/-- Lines 429-441 of `create_icosahedron`: `create_vertices(12)`, the loop that assigns the
coordinates and the loop that creates the triangles. -/
def create_icosahedron_elements (M : Mesh) : Mesh :=
  let (M, first_v) := M.create_vertices 12
  let M := (List.range 12).foldl (fun M v =>
    M.set_vertex (first_v + v)
      [points.getD (3 * v) 0, points.getD (3 * v + 1) 0, points.getD (3 * v + 2) 0]) M
  let M := (List.range 20).foldl (fun M f =>
    M.create_triangle
      (first_v + facets.getD (3 * f) 0)
      (first_v + facets.getD (3 * f + 1) 0)
      (first_v + facets.getD (3 * f + 2) 0)) M
  M

/-- Lines 382-445. -/
def create_icosahedron (G : GEO) (s : State) : State :=
  let s := begin s
  if s.mesh.dimension < 3 then
    s.emit (Call.log_err "Mesh" "Dimension smaller than 3")
  else
    let s := { s with mesh := create_icosahedron_elements s.mesh }
    let s := s.run Call.facets_connect G.facets_connect
    end_ G s

end MeshShapesCommands

/-! ## `vorpaview_commands_gui` (lines 658-698) -/

/-- A call to the immediate-mode GUI toolkit, or to the current command. -/
inductive GuiCall where
  /-- Call to `ImGui::SetNextWindowPos(ImVec2(x, y), ImGuiSetCond_Always)`. -/
  | SetNextWindowPos (x y : ℚ)
  /-- Call to `ImGui::SetNextWindowSize(ImVec2(w, h), ImGuiSetCond_Always)`. -/
  | SetNextWindowSize (w h : ℚ)
  /-- Call to `ImGui::Begin(name, NULL, flags)`. -/
  | Begin (name : String) (flags : List String)
  /-- Call to `do_gui()` on the command with this name. -/
  | do_gui (command : String)
  /-- Call to `ImGui::End()`. -/
  | End
deriving DecidableEq

def MENU_HEIGHT : Int := 20
def PANE_WIDTH : Int := 140
def CONSOLE_HEIGHT : Int := 200

/-- Lines 658-698. `current` is the value of `GEO::Command::current()` (`none` for `nil`),
`w` and `h` the values returned by `glup_viewer_get_screen_size`. Returns the GUI calls
made, in order. -/
def vorpaview_commands_gui (current : Option String) (_w h : Int) (s : State) : List GuiCall :=
  match current with
  | none => []
  | some _ =>
    let pane_height : ℚ := ((h - MENU_HEIGHT : Int) : ℚ)
    let pane_height : ℚ := if s.show_console then pane_height - (CONSOLE_HEIGHT : ℚ) else pane_height
    [GuiCall.SetNextWindowPos 0 ((MENU_HEIGHT : ℚ) + pane_height / 2 + 1),
     GuiCall.SetNextWindowSize (PANE_WIDTH : ℚ) (pane_height / 2 - 1),
     GuiCall.Begin "Command" ["NoResize", "NoMove", "NoCollapse", "NoTitleBar"]] ++
    (match current with
     | some c => [GuiCall.do_gui c]
     | none => []) ++
    [GuiCall.End]

/-- The element removals as the specification words them: each of the edges, facets and
cells is emptied when its flag is set and kept as it is otherwise; nothing else changes.
To be compared with what `MeshCommands.remove_elements` computes. -/
def selected_removed (edges facets cells : Bool) (m : Mesh) : Mesh :=
  { m with
    edges := if edges then [] else m.edges
    facets := if facets then [] else m.facets
    cells := if cells then [] else m.cells }

/-! ## Surface combinatorics used to state the shape claims -/

/-- Directed edges of a facet whose first corner is `first`, from corner `prev` on. -/
def half_edges_from (first : Nat) : Nat → List Nat → List (Nat × Nat)
  | prev, [] => [(prev, first)]
  | prev, b :: rest => (prev, b) :: half_edges_from first b rest

/-- Directed edges traversed by a facet: each corner to the next one, the last corner back
to the first. -/
def half_edges : List Nat → List (Nat × Nat)
  | [] => []
  | a :: rest => half_edges_from a a rest

/-- The eight combinations of `{x1,x2} x {y1,y2} x {z1,z2}`. -/
def box_corners (x1 y1 z1 x2 y2 z2 : ℚ) : List Point :=
  [x1, x2].flatMap fun x => [y1, y2].flatMap fun y => [z1, z2].map fun z => [x, y, z]

/-- Corner `i` of `box_corners` takes its x from bit 2, its y from bit 1 and its z from
bit 0 of `i`; two corners span a box edge when they differ in exactly one of the three. -/
def spans_box_edge (i j : Nat) : Bool :=
  (if i / 4 = j / 4 then 0 else 1) + (if i / 2 % 2 = j / 2 % 2 then 0 else 1) +
    (if i % 2 = j % 2 then 0 else 1) == 1

/-- The 12 box edges, each in its two directions. -/
def box_edges : List (Nat × Nat) :=
  (List.range 8).flatMap fun i => ((List.range 8).filter (spans_box_edge i)).map fun j => (i, j)

/-- Whether all corners of facet `q` have coordinate number `axis` equal to `value`. -/
def lies_in_plane (vertices : List Point) (q : List Nat) (plane : Nat × ℚ) : Prop :=
  ∀ c ∈ q, (vertices[c]?).bind (fun p => p[plane.1]?) = some plane.2

instance (vertices : List Point) (q : List Nat) (plane : Nat × ℚ) :
    Decidable (lies_in_plane vertices q plane) := by
  unfold lies_in_plane
  infer_instance

/-- Row `v` of the table `points`, as a point. -/
def point_row (v : Nat) : Point :=
  [MeshShapesCommands.points.getD (3 * v) 0, MeshShapesCommands.points.getD (3 * v + 1) 0,
   MeshShapesCommands.points.getD (3 * v + 2) 0]

/-- Row `f` of the table `facets`, as a triangle on the vertices `0..11`. -/
def facet_row (f : Nat) : List Nat :=
  [MeshShapesCommands.facets.getD (3 * f) 0, MeshShapesCommands.facets.getD (3 * f + 1) 0,
   MeshShapesCommands.facets.getD (3 * f + 2) 0]

/-- The 20 rows of the table `facets`. -/
def facet_table : List (List Nat) := (List.range 20).map facet_row

/-- The facet `q` with every corner index moved up by `n`. -/
def shift_facet (n : Nat) (q : List Nat) : List Nat := q.map (fun c => n + c)

/-! ## Sample inputs -/

/-- A library whose mesh algorithms return the mesh they are given, whose measures are the
two given constants, and which finds the facets simplicial when each has 3 corners. -/
def sample_library (diagonal area : ℚ) : GEO where
  facets_are_simplices := fun m => m.facets.all (fun f => f.length == 3)
  orient_normals := fun m => m
  facets_connect := fun m => m
  bbox_diagonal := fun _ => diagonal
  mesh_area := fun _ _ => area
  mesh_repair := fun m _ => m
  remove_small_connected_components := fun m _ => m
  fill_holes := fun m _ _ => m
  remove_degree3_vertices := fun m _ => m
  mesh_remove_intersections := fun m => m
  compute_normals := fun m => m
  simple_Laplacian_smooth := fun m _ _ => m
  set_anisotropy := fun m _ => m
  compute_sizing_field := fun m _ _ => m
  remesh_smooth := fun m _ _ _ _ _ => m

/-- The sample library, except that the facets are never reported simplicial. -/
def never_simplicial_library : GEO :=
  { sample_library 1 1 with facets_are_simplices := fun _ => false }

/-- A viewer state holding the given mesh contents in single precision, before any call. -/
def sample_state (vertices : List Point) (edges : List (Nat × Nat)) (facets cells : List (List Nat)) :
    State where
  mesh :=
    { dimension := 3, double_precision := false, attributes := [],
      vertices := vertices, edges := edges, facets := facets, cells := cells }
  calls := []
  show_vertices := true
  show_surface := true
  show_volume := false
  show_console := false

/-! ## Theorems -/

/-- C1: `clear(false)` (the default invocation) returns the state it was given: mesh,
precision and record of graphics bindings are untouched. `clear(true)` leaves a mesh with
no vertex, edge, facet or cell, in single precision, and binds that mesh to the graphics
object as its one outgoing call. -/
theorem clear_guarded (s : State) :
    MeshCommands.clear false s = s ∧
    (MeshCommands.clear true s).mesh.vertices = [] ∧
    (MeshCommands.clear true s).mesh.edges = [] ∧
    (MeshCommands.clear true s).mesh.facets = [] ∧
    (MeshCommands.clear true s).mesh.cells = [] ∧
    (MeshCommands.clear true s).mesh.double_precision = false ∧
    (MeshCommands.clear true s).calls =
      s.calls ++ [Call.set_mesh (MeshCommands.clear true s).mesh] := by
  refine ⟨rfl, rfl, rfl, rfl, rfl, rfl, rfl⟩

/-- C2: with `vertices = true`, `remove_elements` leaves a mesh with no vertex, edge, facet
or cell, and the whole resulting state does not depend on the four other flags. -/
theorem remove_elements_vertices_removes_everything
    (edges facets cells kill_isolated_vx : Bool) (s : State) :
    (MeshCommands.remove_elements true edges facets cells kill_isolated_vx s).mesh.vertices = [] ∧
    (MeshCommands.remove_elements true edges facets cells kill_isolated_vx s).mesh.edges = [] ∧
    (MeshCommands.remove_elements true edges facets cells kill_isolated_vx s).mesh.facets = [] ∧
    (MeshCommands.remove_elements true edges facets cells kill_isolated_vx s).mesh.cells = [] ∧
    MeshCommands.remove_elements true edges facets cells kill_isolated_vx s =
      MeshCommands.remove_elements true false false false false s := by
  refine ⟨rfl, rfl, rfl, rfl, rfl⟩

/-! ### Compaction of the vertex array -/

theorem getElem?_compact {α : Type} (keep : Nat → Bool) (xs : List α) :
    ∀ (k v : Nat), keep v = true → k ≤ v →
      (compact keep k xs)[new_index keep k xs v]? = xs[v - k]? := by
  induction xs with
  | nil => intro k v _ _; simp [compact]
  | cons x xs ih =>
    intro k v hv hk
    rcases Nat.eq_or_lt_of_le hk with h | h
    · subst h
      simp [compact, new_index, hv]
    · have h1 : ¬ v ≤ k := by omega
      have h2 : v - k = (v - (k + 1)) + 1 := by omega
      have ih1 := ih (k + 1) v hv (by omega)
      by_cases hkk : keep k = true
      · simp [compact, new_index, h1, hkk, h2, Nat.add_comm 1, ih1]
      · simp [compact, new_index, h1, hkk, h2, ih1]

theorem compact_sublist {α : Type} (keep : Nat → Bool) (xs : List α) :
    ∀ k, (compact keep k xs).Sublist xs := by
  induction xs with
  | nil => intro k; simp [compact]
  | cons x xs ih =>
    intro k
    by_cases hkk : keep k = true
    · simp [compact, hkk, ih]
    · simp only [compact, hkk]
      exact List.Sublist.cons _ (ih _)

theorem exists_new_index {α : Type} (keep : Nat → Bool) (xs : List α) :
    ∀ (k j : Nat), j < (compact keep k xs).length →
      ∃ v, k ≤ v ∧ v < k + xs.length ∧ keep v = true ∧ new_index keep k xs v = j := by
  induction xs with
  | nil => intro k j h; simp [compact] at h
  | cons x xs ih =>
    intro k j h
    by_cases hkk : keep k = true
    · simp only [compact, hkk, if_true, List.length_cons] at h
      cases j with
      | zero => exact ⟨k, le_refl _, by simp, hkk, by simp [new_index]⟩
      | succ j =>
        obtain ⟨v, h1, h2, h3, h4⟩ := ih (k + 1) j (by omega)
        refine ⟨v, by omega, by simp; omega, h3, ?_⟩
        have : ¬ v ≤ k := by omega
        simp [new_index, this, hkk, h4, Nat.add_comm]
    · simp only [compact, hkk] at h
      obtain ⟨v, h1, h2, h3, h4⟩ := ih (k + 1) j (by simpa using h)
      refine ⟨v, by omega, by simp; omega, h3, ?_⟩
      have : ¬ v ≤ k := by omega
      simp [new_index, this, hkk, h4]

/-- Looking a used vertex up after `remove_isolated`, at its new index, gives the point it
had before. -/
theorem remove_isolated_lookup (m : Mesh) (v : Nat) (hv : m.vertex_is_used v = true) :
    m.remove_isolated.vertices[new_index m.vertex_is_used 0 m.vertices v]? = m.vertices[v]? := by
  have := getElem?_compact m.vertex_is_used m.vertices 0 v hv (Nat.zero_le _)
  simpa [Mesh.remove_isolated] using this

theorem used_of_mem_edge_left (m : Mesh) (e : Nat × Nat) (he : e ∈ m.edges) :
    m.vertex_is_used e.1 = true := by
  simp only [Mesh.vertex_is_used, Bool.or_eq_true, List.any_eq_true]
  exact Or.inl (Or.inl ⟨e, he, by simp⟩)

theorem used_of_mem_edge_right (m : Mesh) (e : Nat × Nat) (he : e ∈ m.edges) :
    m.vertex_is_used e.2 = true := by
  simp only [Mesh.vertex_is_used, Bool.or_eq_true, List.any_eq_true]
  exact Or.inl (Or.inl ⟨e, he, by simp⟩)

theorem used_of_mem_facet (m : Mesh) (f : List Nat) (hf : f ∈ m.facets) (v : Nat) (hv : v ∈ f) :
    m.vertex_is_used v = true := by
  simp only [Mesh.vertex_is_used, Bool.or_eq_true, List.any_eq_true]
  exact Or.inl (Or.inr ⟨f, hf, by simpa using hv⟩)

theorem used_of_mem_cell (m : Mesh) (c : List Nat) (hc : c ∈ m.cells) (v : Nat) (hv : v ∈ c) :
    m.vertex_is_used v = true := by
  simp only [Mesh.vertex_is_used, Bool.or_eq_true, List.any_eq_true]
  exact Or.inr ⟨c, hc, by simpa using hv⟩

theorem remove_isolated_edge_points (m : Mesh) :
    m.remove_isolated.edge_points = m.edge_points := by
  have h : ∀ e ∈ m.edges,
      (m.remove_isolated.vertices[new_index m.vertex_is_used 0 m.vertices e.1]?,
       m.remove_isolated.vertices[new_index m.vertex_is_used 0 m.vertices e.2]?) =
      (m.vertices[e.1]?, m.vertices[e.2]?) := by
    intro e he
    rw [remove_isolated_lookup m e.1 (used_of_mem_edge_left m e he),
      remove_isolated_lookup m e.2 (used_of_mem_edge_right m e he)]
  simp only [Mesh.edge_points]
  rw [show m.remove_isolated.edges = m.edges.map (fun e =>
      (new_index m.vertex_is_used 0 m.vertices e.1, new_index m.vertex_is_used 0 m.vertices e.2))
    from rfl, List.map_map]
  exact List.map_congr_left h

theorem remove_isolated_facet_points (m : Mesh) :
    m.remove_isolated.facet_points = m.facet_points := by
  simp only [Mesh.facet_points]
  rw [show m.remove_isolated.facets =
      m.facets.map (fun f => f.map (new_index m.vertex_is_used 0 m.vertices)) from rfl,
    List.map_map]
  apply List.map_congr_left
  intro f hf
  simp only [Function.comp, List.map_map]
  apply List.map_congr_left
  intro v hv
  exact remove_isolated_lookup m v (used_of_mem_facet m f hf v hv)

theorem remove_isolated_cell_points (m : Mesh) :
    m.remove_isolated.cell_points = m.cell_points := by
  simp only [Mesh.cell_points]
  rw [show m.remove_isolated.cells =
      m.cells.map (fun c => c.map (new_index m.vertex_is_used 0 m.vertices)) from rfl,
    List.map_map]
  apply List.map_congr_left
  intro c hc
  simp only [Function.comp, List.map_map]
  apply List.map_congr_left
  intro v hv
  exact remove_isolated_lookup m v (used_of_mem_cell m c hc v hv)

/-- After `remove_isolated` every vertex is a corner of some element. -/
theorem remove_isolated_all_used (m : Mesh) (j : Nat)
    (hj : j < m.remove_isolated.vertices.length) :
    m.remove_isolated.vertex_is_used j = true := by
  obtain ⟨v, -, -, hv, rfl⟩ := exists_new_index m.vertex_is_used m.vertices 0 j hj
  simp only [Mesh.vertex_is_used, Bool.or_eq_true, List.any_eq_true] at hv ⊢
  rcases hv with (⟨e, he, hev⟩ | ⟨f, hf, hfv⟩) | ⟨c, hc, hcv⟩
  · refine Or.inl (Or.inl ⟨_, List.mem_map_of_mem _ he, ?_⟩)
    simp only [Bool.or_eq_true, beq_iff_eq] at hev ⊢
    rcases hev with h | h
    · exact Or.inl (by rw [h])
    · exact Or.inr (by rw [h])
  · refine Or.inl (Or.inr ⟨_, List.mem_map_of_mem _ hf, ?_⟩)
    have hfv' : v ∈ f := by simpa using hfv
    simpa using List.mem_map_of_mem (new_index m.vertex_is_used 0 m.vertices) hfv'
  · refine Or.inr ⟨_, List.mem_map_of_mem _ hc, ?_⟩
    have hcv' : v ∈ c := by simpa using hcv
    simpa using List.mem_map_of_mem (new_index m.vertex_is_used 0 m.vertices) hcv'

theorem remove_elements_eq (edges facets cells kill_isolated_vx : Bool) (s : State) :
    (MeshCommands.remove_elements false edges facets cells kill_isolated_vx s).mesh =
      if kill_isolated_vx then (selected_removed edges facets cells s.mesh).remove_isolated
      else selected_removed edges facets cells s.mesh := by
  cases edges <;> cases facets <;> cases cells <;> cases kill_isolated_vx <;> rfl

/-- C3: with `vertices = false`, `remove_elements` empties exactly the element kinds whose
flag is set and keeps the elements of the others (same elements, in the same order, with the
same corner points; their corner indices follow the packing of the vertex array when
`remove_isolated` runs). Without `kill_isolated_vx` the resulting mesh is the given one with the
flagged kinds emptied, vertices and stored corner indices included. With `kill_isolated_vx`
it is `remove_isolated` applied to that mesh, hence after the removals: the vertices left
are vertices of the given mesh in their previous order, and each of them is a corner of an
element that is still there. With all five flags false the mesh is the given one. The one
outgoing call binds the resulting mesh to the graphics object. -/
theorem remove_elements_selective (edges facets cells kill_isolated_vx : Bool) (s : State) :
    (MeshCommands.remove_elements false edges facets cells kill_isolated_vx s).mesh.edge_points =
      (if edges then [] else s.mesh.edge_points) ∧
    (MeshCommands.remove_elements false edges facets cells kill_isolated_vx s).mesh.facet_points =
      (if facets then [] else s.mesh.facet_points) ∧
    (MeshCommands.remove_elements false edges facets cells kill_isolated_vx s).mesh.cell_points =
      (if cells then [] else s.mesh.cell_points) ∧
    ((MeshCommands.remove_elements false edges facets cells kill_isolated_vx s).mesh.edges = [] ↔
      (edges = true ∨ s.mesh.edges = [])) ∧
    ((MeshCommands.remove_elements false edges facets cells kill_isolated_vx s).mesh.facets = [] ↔
      (facets = true ∨ s.mesh.facets = [])) ∧
    ((MeshCommands.remove_elements false edges facets cells kill_isolated_vx s).mesh.cells = [] ↔
      (cells = true ∨ s.mesh.cells = [])) ∧
    (kill_isolated_vx = false →
      (MeshCommands.remove_elements false edges facets cells kill_isolated_vx s).mesh =
        selected_removed edges facets cells s.mesh) ∧
    (kill_isolated_vx = true →
      (MeshCommands.remove_elements false edges facets cells kill_isolated_vx s).mesh =
        (selected_removed edges facets cells s.mesh).remove_isolated ∧
      (MeshCommands.remove_elements false edges facets cells kill_isolated_vx s).mesh.vertices.Sublist
        s.mesh.vertices ∧
      ∀ v, v < (MeshCommands.remove_elements false edges facets cells
            kill_isolated_vx s).mesh.vertices.length →
        (MeshCommands.remove_elements false edges facets cells
            kill_isolated_vx s).mesh.vertex_is_used v = true) ∧
    (MeshCommands.remove_elements false false false false false s).mesh = s.mesh ∧
    (MeshCommands.remove_elements false edges facets cells kill_isolated_vx s).mesh.dimension =
      s.mesh.dimension ∧
    (MeshCommands.remove_elements false edges facets cells
        kill_isolated_vx s).mesh.double_precision = s.mesh.double_precision ∧
    (MeshCommands.remove_elements false edges facets cells kill_isolated_vx s).mesh.attributes =
      s.mesh.attributes ∧
    (MeshCommands.remove_elements false edges facets cells kill_isolated_vx s).calls =
      s.calls ++ [Call.set_mesh
        (MeshCommands.remove_elements false edges facets cells kill_isolated_vx s).mesh] := by
  have hpts : ∀ m : Mesh, ∀ k : Bool,
      (if k then m.remove_isolated else m).edge_points = m.edge_points ∧
      (if k then m.remove_isolated else m).facet_points = m.facet_points ∧
      (if k then m.remove_isolated else m).cell_points = m.cell_points := by
    intro m k
    cases k
    · exact ⟨rfl, rfl, rfl⟩
    · exact ⟨remove_isolated_edge_points m, remove_isolated_facet_points m,
        remove_isolated_cell_points m⟩
  have hnil : ∀ m : Mesh, ∀ k : Bool,
      ((if k then m.remove_isolated else m).edges = [] ↔ m.edges = []) ∧
      ((if k then m.remove_isolated else m).facets = [] ↔ m.facets = []) ∧
      ((if k then m.remove_isolated else m).cells = [] ↔ m.cells = []) := by
    intro m k
    cases k
    · exact ⟨Iff.rfl, Iff.rfl, Iff.rfl⟩
    · simp [Mesh.remove_isolated]
  rw [remove_elements_eq]
  obtain ⟨hp1, hp2, hp3⟩ := hpts (selected_removed edges facets cells s.mesh) kill_isolated_vx
  obtain ⟨hn1, hn2, hn3⟩ := hnil (selected_removed edges facets cells s.mesh) kill_isolated_vx
  refine ⟨?_, ?_, ?_, ?_, ?_, ?_, ?_, ?_, rfl, ?_, ?_, ?_, ?_⟩
  · rw [hp1]; cases edges <;> rfl
  · rw [hp2]; cases facets <;> rfl
  · rw [hp3]; cases cells <;> rfl
  · rw [hn1]; cases edges <;> simp [selected_removed]
  · rw [hn2]; cases facets <;> simp [selected_removed]
  · rw [hn3]; cases cells <;> simp [selected_removed]
  · intro h; subst h; rfl
  · intro h; subst h
    refine ⟨rfl, ?_, ?_⟩
    · exact compact_sublist _ _ 0
    · intro v hv
      exact remove_isolated_all_used _ v hv
  · cases kill_isolated_vx <;> rfl
  · cases kill_isolated_vx <;> rfl
  · cases kill_isolated_vx <;> rfl
  · rw [← remove_elements_eq]
    cases edges <;> cases facets <;> cases cells <;> cases kill_isolated_vx <;> rfl

/-- C4: when the mesh has no facet, or when the library reports that its facets are not all
triangles, `remesh_smooth` returns the state it was given with one more outgoing call, the
error message: "mesh has no facet" whenever there is no facet (also when the facets are
reported not simplicial), "mesh need to be simplicial, use repair" otherwise. The mesh
(elements, dimension, attributes, precision) is the given one, so `begin()` did not run, and
no call to a library algorithm was made. -/
theorem remesh_smooth_fails_atomically (G : GEO) (nb_points : Nat)
    (tri_shape_adapt tri_size_adapt : ℚ)
    (normal_iter Lloyd_iter Newton_iter Newton_m LFS_samples : Nat) (s : State)
    (h : s.mesh.facets.length = 0 ∨ G.facets_are_simplices s.mesh = false) :
    MeshSurfaceCommands.remesh_smooth G nb_points tri_shape_adapt tri_size_adapt
        normal_iter Lloyd_iter Newton_iter Newton_m LFS_samples s =
      { s with calls := s.calls ++ [Call.log_err "Remesh"
          (if s.mesh.facets.length = 0 then "mesh has no facet"
           else "mesh need to be simplicial, use repair")] } ∧
    (MeshSurfaceCommands.remesh_smooth G nb_points tri_shape_adapt tri_size_adapt
        normal_iter Lloyd_iter Newton_iter Newton_m LFS_samples s).mesh = s.mesh := by
  by_cases h0 : s.mesh.facets.length = 0
  · simp [MeshSurfaceCommands.remesh_smooth, h0, State.emit]
  · have h1 : G.facets_are_simplices s.mesh = false := by
      rcases h with h | h
      · exact absurd h h0
      · exact h
    simp [MeshSurfaceCommands.remesh_smooth, h0, h1, State.emit]

/-- Witness for C4, in single precision: a mesh without facets; a mesh whose only facet is a
quad; and a mesh without facets under a library that reports "not simplicial", where both
conditions hold and the no-facet message is the one sent. -/
theorem remesh_smooth_fails_atomically_witness :
    (MeshSurfaceCommands.remesh_smooth (sample_library 1 1) 30000 1 0 3 5 30 7 10000
        (sample_state [[0, 0, 0]] [] [] [])).calls =
      [Call.log_err "Remesh" "mesh has no facet"] ∧
    (MeshSurfaceCommands.remesh_smooth (sample_library 1 1) 30000 1 0 3 5 30 7 10000
        (sample_state [[0, 0, 0], [1, 0, 0], [1, 1, 0], [0, 1, 0]] [] [[0, 1, 2, 3]] [])).calls =
      [Call.log_err "Remesh" "mesh need to be simplicial, use repair"] ∧
    (MeshSurfaceCommands.remesh_smooth (sample_library 1 1) 30000 1 0 3 5 30 7 10000
        (sample_state [[0, 0, 0], [1, 0, 0], [1, 1, 0], [0, 1, 0]] [] [[0, 1, 2, 3]] [])).mesh =
      (sample_state [[0, 0, 0], [1, 0, 0], [1, 1, 0], [0, 1, 0]] [] [[0, 1, 2, 3]] []).mesh ∧
    (MeshSurfaceCommands.remesh_smooth never_simplicial_library 30000 1 0 3 5 30 7 10000
        (sample_state [[0, 0, 0]] [] [] [])).calls =
      [Call.log_err "Remesh" "mesh has no facet"] := by
  refine ⟨?_, ?_, ?_, ?_⟩
  · rw [(remesh_smooth_fails_atomically (sample_library 1 1) 30000 1 0 3 5 30 7 10000
      (sample_state [[0, 0, 0]] [] [] []) (Or.inl rfl)).1]
    rfl
  · rw [(remesh_smooth_fails_atomically (sample_library 1 1) 30000 1 0 3 5 30 7 10000
      (sample_state [[0, 0, 0], [1, 0, 0], [1, 1, 0], [0, 1, 0]] [] [[0, 1, 2, 3]] [])
      (Or.inr rfl)).1]
    rfl
  · exact (remesh_smooth_fails_atomically (sample_library 1 1) 30000 1 0 3 5 30 7 10000
      (sample_state [[0, 0, 0], [1, 0, 0], [1, 1, 0], [0, 1, 0]] [] [[0, 1, 2, 3]] [])
      (Or.inr rfl)).2
  · rw [(remesh_smooth_fails_atomically never_simplicial_library 30000 1 0 3 5 30 7 10000
      (sample_state [[0, 0, 0]] [] [] []) (Or.inr rfl)).1]
    rfl

/-- C8: without a current command `vorpaview_commands_gui` makes no GUI call. With a
current command `c`, screen height `h` and `pane_height = h - 20` (console hidden) or
`h - 220` (console shown), it makes exactly these calls, in order: window position
`(0, 20 + pane_height/2 + 1)`, window size `140 x (pane_height/2 - 1)`, one `Begin`, one
`do_gui` on `c`, one `End`. Position y plus height is `20 + pane_height`, that is `h`
without console and `h - 200` with it. -/
theorem vorpaview_commands_gui_layout (c : String) (w h : Int) (s : State) :
    vorpaview_commands_gui none w h s = [] ∧
    vorpaview_commands_gui (some c) w h s =
      [GuiCall.SetNextWindowPos 0
         (20 + (if s.show_console then (h : ℚ) - 220 else (h : ℚ) - 20) / 2 + 1),
       GuiCall.SetNextWindowSize 140
         ((if s.show_console then (h : ℚ) - 220 else (h : ℚ) - 20) / 2 - 1),
       GuiCall.Begin "Command" ["NoResize", "NoMove", "NoCollapse", "NoTitleBar"],
       GuiCall.do_gui c,
       GuiCall.End] ∧
    (20 + (if s.show_console then (h : ℚ) - 220 else (h : ℚ) - 20) / 2 + 1) +
        ((if s.show_console then (h : ℚ) - 220 else (h : ℚ) - 20) / 2 - 1) =
      20 + (if s.show_console then (h : ℚ) - 220 else (h : ℚ) - 20) ∧
    (20 : ℚ) + (if s.show_console then (h : ℚ) - 220 else (h : ℚ) - 20) =
      (if s.show_console then (h : ℚ) - 200 else (h : ℚ)) := by
  refine ⟨rfl, ?_, by ring, ?_⟩
  · cases hc : s.show_console
    · simp [vorpaview_commands_gui, hc, MENU_HEIGHT, PANE_WIDTH]
    · simp [vorpaview_commands_gui, hc, MENU_HEIGHT, PANE_WIDTH, CONSOLE_HEIGHT]
      ring
  · cases s.show_console
    · simp
    · simp; ring

/-! ### Facets moved to new vertex indices -/

theorem half_edges_from_map (f : Nat → Nat) (first : Nat) (rest : List Nat) :
    ∀ prev, half_edges_from (f first) (f prev) (rest.map f) =
      (half_edges_from first prev rest).map (Prod.map f f) := by
  induction rest with
  | nil => intro prev; rfl
  | cons b rest ih =>
    intro prev
    simp [half_edges_from, ih b]

theorem half_edges_map (f : Nat → Nat) (q : List Nat) :
    half_edges (q.map f) = (half_edges q).map (Prod.map f f) := by
  cases q with
  | nil => rfl
  | cons a rest => exact half_edges_from_map f a rest a

theorem half_edges_shift (n : Nat) (T : List (List Nat)) :
    (T.map (shift_facet n)).flatMap half_edges =
      (T.flatMap half_edges).map (Prod.map (fun c => n + c) (fun c => n + c)) := by
  induction T with
  | nil => rfl
  | cons t T ih =>
    simp only [List.map_cons, List.flatMap_cons, List.map_append, ih, shift_facet, half_edges_map]

theorem shift_injective (n : Nat) :
    Function.Injective (Prod.map (fun c : Nat => n + c) (fun c : Nat => n + c)) := by
  rintro ⟨a1, a2⟩ ⟨b1, b2⟩ h
  simp only [Prod.map_apply, Prod.mk.injEq, Nat.add_left_cancel_iff] at h
  exact Prod.ext h.1 h.2

theorem lookup_appended {α : Type} (vs ws : List α) (i : Nat) :
    (vs ++ ws)[vs.length + i]? = ws[i]? := by
  simp [List.getElem?_append_right]

theorem shifted_facets_wellformed (n k len : Nat) (T : List (List Nat))
    (h : ∀ t ∈ T, t.length = len ∧ t.Nodup ∧ ∀ c ∈ t, c < k) :
    ∀ t ∈ T.map (shift_facet n), t.length = len ∧ t.Nodup ∧ ∀ c ∈ t, n ≤ c ∧ c < n + k := by
  intro t ht
  obtain ⟨t0, ht0, rfl⟩ := List.mem_map.1 ht
  obtain ⟨h1, h2, h3⟩ := h t0 ht0
  refine ⟨by simp [shift_facet, h1], ?_, ?_⟩
  · exact h2.map (fun a b hab => Nat.add_left_cancel hab)
  · intro c hc
    obtain ⟨c0, hc0, rfl⟩ := List.mem_map.1 hc
    have := h3 c0 hc0
    omega

theorem lies_in_plane_shift (vs ws : List Point) (q : List Nat) (plane : Nat × ℚ)
    (h : ∀ c ∈ q, (ws[c]?).bind (fun p => p[plane.1]?) = some plane.2) :
    lies_in_plane (vs ++ ws) (shift_facet vs.length q) plane := by
  intro c hc
  obtain ⟨c0, hc0, rfl⟩ := List.mem_map.1 hc
  rw [lookup_appended]
  exact h c0 hc0

/-- C5: on a mesh of dimension at least 3 holding `n` vertices, `create_cube` hands to the
closing library calls (`facets.connect()`, then `end()`) the mesh built by its eight
`create_vertex` and six `create_quad` calls. In that mesh the previous vertices are followed
by the 8 combinations of `{x1,x2} x {y1,y2} x {z1,z2}`, the previous facets by 6 quads,
edges and cells are the previous ones; each quad has 4 distinct corners among the 8 new
vertices; the quads lie, in creation order, in the planes `y=y2`, `x=x1`, `z=z2`, `x=x2`,
`y=y1`, `z=z1`; and the directed edges traversed by the quads are exactly the 12 box edges,
each once in each direction. -/
theorem create_cube_builds_box (G : GEO) (x1 y1 z1 x2 y2 z2 : ℚ) (s : State)
    (hdim : 3 ≤ s.mesh.dimension) :
    MeshShapesCommands.create_cube G x1 y1 z1 x2 y2 z2 s =
      MeshCommands.end_ G (State.run
        { MeshCommands.begin s with
          mesh := MeshShapesCommands.create_cube_elements x1 y1 z1 x2 y2 z2
            (MeshCommands.begin s).mesh }
        Call.facets_connect G.facets_connect) ∧
    (MeshShapesCommands.create_cube_elements x1 y1 z1 x2 y2 z2 (MeshCommands.begin s).mesh).vertices =
      s.mesh.vertices ++ box_corners x1 y1 z1 x2 y2 z2 ∧
    (box_corners x1 y1 z1 x2 y2 z2).length = 8 ∧
    (MeshShapesCommands.create_cube_elements x1 y1 z1 x2 y2 z2 (MeshCommands.begin s).mesh).edges =
      s.mesh.edges ∧
    (MeshShapesCommands.create_cube_elements x1 y1 z1 x2 y2 z2 (MeshCommands.begin s).mesh).cells =
      s.mesh.cells ∧
    ∃ Q : List (List Nat),
      (MeshShapesCommands.create_cube_elements x1 y1 z1 x2 y2 z2
          (MeshCommands.begin s).mesh).facets = s.mesh.facets ++ Q ∧
      Q.length = 6 ∧
      (∀ q ∈ Q, q.length = 4 ∧ q.Nodup ∧
        ∀ c ∈ q, s.mesh.vertices.length ≤ c ∧ c < s.mesh.vertices.length + 8) ∧
      List.Forall₂
        (lies_in_plane (MeshShapesCommands.create_cube_elements x1 y1 z1 x2 y2 z2
          (MeshCommands.begin s).mesh).vertices)
        Q [(1, y2), (0, x1), (2, z2), (0, x2), (1, y1), (2, z1)] ∧
      (Q.flatMap half_edges).Perm
        (box_edges.map (fun e => (s.mesh.vertices.length + e.1, s.mesh.vertices.length + e.2))) ∧
      box_edges.length = 24 ∧ box_edges.Nodup ∧ (∀ e ∈ box_edges, (e.2, e.1) ∈ box_edges) := by
  have hv : (MeshShapesCommands.create_cube_elements x1 y1 z1 x2 y2 z2
      (MeshCommands.begin s).mesh).vertices = s.mesh.vertices ++ box_corners x1 y1 z1 x2 y2 z2 := by
    simp [MeshShapesCommands.create_cube_elements, Mesh.create_vertex, Mesh.create_quad,
      box_corners, MeshCommands.begin, Mesh.set_double_precision]
  refine ⟨?_, hv, rfl, rfl, rfl,
    [[3, 7, 6, 2], [0, 1, 3, 2], [1, 5, 7, 3], [5, 4, 6, 7], [0, 4, 5, 1], [2, 6, 4, 0]].map
      (shift_facet s.mesh.vertices.length), ?_, rfl, ?_, ?_, ?_⟩
  · have hlt : ¬ (MeshCommands.begin s).mesh.dimension < 3 := by
      show ¬ s.mesh.dimension < 3
      omega
    simp only [MeshShapesCommands.create_cube, hlt, if_false]
  · simp [MeshShapesCommands.create_cube_elements, Mesh.create_vertex, Mesh.create_quad,
      MeshCommands.begin, Mesh.set_double_precision, shift_facet]
  · exact shifted_facets_wellformed _ 8 4 _ (by decide)
  · rw [hv]
    refine List.Forall₂.cons (lies_in_plane_shift _ _ _ _ ?_) (List.Forall₂.cons
      (lies_in_plane_shift _ _ _ _ ?_) (List.Forall₂.cons (lies_in_plane_shift _ _ _ _ ?_)
      (List.Forall₂.cons (lies_in_plane_shift _ _ _ _ ?_) (List.Forall₂.cons
      (lies_in_plane_shift _ _ _ _ ?_) (List.Forall₂.cons (lies_in_plane_shift _ _ _ _ ?_)
      List.Forall₂.nil))))) <;> simp [box_corners]
  · rw [half_edges_shift]
    exact ⟨List.Perm.map _ (by decide), by decide, by decide, by decide⟩

theorem shifted_half_edges_closed (n : Nat) (T : List (List Nat))
    (hnodup : (T.flatMap half_edges).Nodup)
    (hswap : ∀ e ∈ T.flatMap half_edges, (e.2, e.1) ∈ T.flatMap half_edges) :
    ((T.map (shift_facet n)).flatMap half_edges).length = (T.flatMap half_edges).length ∧
    ((T.map (shift_facet n)).flatMap half_edges).Nodup ∧
    (∀ e ∈ (T.map (shift_facet n)).flatMap half_edges,
      (e.2, e.1) ∈ (T.map (shift_facet n)).flatMap half_edges) ∧
    ((T.map (shift_facet n)).flatMap half_edges).countP (fun e => e.1 < e.2) =
      (T.flatMap half_edges).countP (fun e => e.1 < e.2) := by
  rw [half_edges_shift]
  refine ⟨by simp, hnodup.map (shift_injective n), ?_, ?_⟩
  · intro e he
    obtain ⟨e0, he0, rfl⟩ := List.mem_map.1 he
    exact List.mem_map.2 ⟨(e0.2, e0.1), hswap e0 he0, rfl⟩
  · rw [List.countP_map]
    apply List.countP_congr
    intro e _
    simp

theorem shifted_facets_degree (n v : Nat) (T : List (List Nat)) :
    (T.map (shift_facet n)).countP (fun t => t.contains (n + v)) =
      T.countP (fun t => t.contains v) := by
  rw [List.countP_map]
  apply List.countP_congr
  intro t _
  simp [shift_facet]

theorem facet_table_wellformed :
    ∀ t ∈ facet_table, t.length = 3 ∧ t.Nodup ∧ ∀ c ∈ t, c < 12 := by decide

theorem facet_table_degree : ∀ v, v < 12 → facet_table.countP (fun t => t.contains v) = 5 := by
  decide

theorem facet_table_half_edges_length : (facet_table.flatMap half_edges).length = 60 := by
  decide

theorem facet_table_half_edges_nodup : (facet_table.flatMap half_edges).Nodup := by decide

theorem facet_table_half_edges_reversed :
    ∀ e ∈ facet_table.flatMap half_edges, (e.2, e.1) ∈ facet_table.flatMap half_edges := by
  decide

theorem facet_table_undirected_edges :
    (facet_table.flatMap half_edges).countP (fun e => e.1 < e.2) = 30 := by decide

theorem create_icosahedron_elements_vertices (M : Mesh) :
    (MeshShapesCommands.create_icosahedron_elements M).vertices =
      M.vertices ++ (List.range 12).map point_row := by
  simp [MeshShapesCommands.create_icosahedron_elements, Mesh.create_vertices,
    Mesh.create_triangle, Mesh.set_vertex, List.range, List.range.loop,
    MeshShapesCommands.points, point_row]

theorem create_icosahedron_elements_facets (M : Mesh) :
    (MeshShapesCommands.create_icosahedron_elements M).facets =
      M.facets ++ facet_table.map (shift_facet M.vertices.length) := by
  simp [MeshShapesCommands.create_icosahedron_elements, Mesh.create_vertices,
    Mesh.create_triangle, Mesh.set_vertex, List.range, List.range.loop,
    MeshShapesCommands.facets, facet_table, facet_row, shift_facet]

theorem create_icosahedron_elements_edges (M : Mesh) :
    (MeshShapesCommands.create_icosahedron_elements M).edges = M.edges := by
  simp [MeshShapesCommands.create_icosahedron_elements, Mesh.create_vertices,
    Mesh.create_triangle, Mesh.set_vertex, List.range, List.range.loop]

theorem create_icosahedron_elements_cells (M : Mesh) :
    (MeshShapesCommands.create_icosahedron_elements M).cells = M.cells := by
  simp [MeshShapesCommands.create_icosahedron_elements, Mesh.create_vertices,
    Mesh.create_triangle, Mesh.set_vertex, List.range, List.range.loop]

/-- C6: on a mesh of dimension at least 3 holding `n` vertices (so that `first_v = n`),
`create_icosahedron` hands to the closing library calls (`facets.connect()`, then `end()`)
the mesh built by `create_vertices(12)` and its two loops. In that mesh the previous
vertices are followed by the 12 rows of `points`, the previous facets by 20 triangles, edges
and cells are the previous ones; each triangle has 3 distinct corners in
`[first_v, first_v + 12)`; each new vertex is a corner of exactly 5 triangles; the triangles
traverse 60 directed edges, no directed edge twice, and with every directed edge its
reverse: 30 undirected edges, each traversed once in each direction, and
`V - E + F = 12 - 30 + 20 = 2`. -/
theorem create_icosahedron_builds_closed_surface (G : GEO) (s : State)
    (hdim : 3 ≤ s.mesh.dimension) :
    MeshShapesCommands.create_icosahedron G s =
      MeshCommands.end_ G (State.run
        { MeshCommands.begin s with
          mesh := MeshShapesCommands.create_icosahedron_elements (MeshCommands.begin s).mesh }
        Call.facets_connect G.facets_connect) ∧
    (MeshShapesCommands.create_icosahedron_elements (MeshCommands.begin s).mesh).vertices =
      s.mesh.vertices ++ (List.range 12).map point_row ∧
    ((List.range 12).map point_row).length = 12 ∧
    (MeshShapesCommands.create_icosahedron_elements (MeshCommands.begin s).mesh).edges =
      s.mesh.edges ∧
    (MeshShapesCommands.create_icosahedron_elements (MeshCommands.begin s).mesh).cells =
      s.mesh.cells ∧
    ∃ T : List (List Nat),
      (MeshShapesCommands.create_icosahedron_elements (MeshCommands.begin s).mesh).facets =
        s.mesh.facets ++ T ∧
      T.length = 20 ∧
      (∀ t ∈ T, t.length = 3 ∧ t.Nodup ∧
        ∀ c ∈ t, s.mesh.vertices.length ≤ c ∧ c < s.mesh.vertices.length + 12) ∧
      (∀ v, v < 12 → T.countP (fun t => t.contains (s.mesh.vertices.length + v)) = 5) ∧
      (T.flatMap half_edges).length = 60 ∧
      (T.flatMap half_edges).Nodup ∧
      (∀ e ∈ T.flatMap half_edges, (e.2, e.1) ∈ T.flatMap half_edges) ∧
      (T.flatMap half_edges).countP (fun e => e.1 < e.2) = 30 ∧
      (((List.range 12).map point_row).length : Int) -
        ((T.flatMap half_edges).countP (fun e => e.1 < e.2) : Int) + (T.length : Int) = 2 := by
  obtain ⟨hlen, hnodup, hswap, hcount⟩ := shifted_half_edges_closed s.mesh.vertices.length
    facet_table facet_table_half_edges_nodup facet_table_half_edges_reversed
  have hlt : ¬ (MeshCommands.begin s).mesh.dimension < 3 := by
    show ¬ s.mesh.dimension < 3
    omega
  refine ⟨?_, create_icosahedron_elements_vertices _, by simp,
    create_icosahedron_elements_edges _, create_icosahedron_elements_cells _,
    facet_table.map (shift_facet s.mesh.vertices.length),
    create_icosahedron_elements_facets _, by simp [facet_table],
    shifted_facets_wellformed _ 12 3 _ facet_table_wellformed, ?_, ?_, hnodup, hswap, ?_, ?_⟩
  · simp only [MeshShapesCommands.create_icosahedron, hlt, if_false]
  · intro v hv
    rw [shifted_facets_degree]
    exact facet_table_degree v hv
  · rw [hlen]; exact facet_table_half_edges_length
  · rw [hcount]; exact facet_table_undirected_edges
  · rw [hcount, facet_table_undirected_edges]
    simp [facet_table]

/-- Witness for C3, on a mesh with four vertices, the first one isolated, and one triangle
on the other three. With only `kill_isolated_vx` set the triangle keeps its corner points and
the mesh is `remove_isolated` of the given one; with `facets` and `kill_isolated_vx` set the
vertices of the removed triangle go as well. -/
theorem remove_elements_selective_witness :
    (MeshCommands.remove_elements false false false false true
        (sample_state [[9, 9, 9], [0, 0, 0], [1, 0, 0], [0, 1, 0]] [] [[1, 2, 3]] [])).mesh.facet_points =
      (sample_state [[9, 9, 9], [0, 0, 0], [1, 0, 0], [0, 1, 0]] [] [[1, 2, 3]] []).mesh.facet_points ∧
    (MeshCommands.remove_elements false false false false true
        (sample_state [[9, 9, 9], [0, 0, 0], [1, 0, 0], [0, 1, 0]] [] [[1, 2, 3]] [])).mesh =
      (selected_removed false false false
        (sample_state [[9, 9, 9], [0, 0, 0], [1, 0, 0], [0, 1, 0]] [] [[1, 2, 3]] []).mesh).remove_isolated ∧
    (MeshCommands.remove_elements false false true false true
        (sample_state [[9, 9, 9], [0, 0, 0], [1, 0, 0], [0, 1, 0]] [] [[1, 2, 3]] [])).mesh.vertices =
      [] := by
  refine ⟨?_, ?_, ?_⟩
  · exact (remove_elements_selective false false false true
      (sample_state [[9, 9, 9], [0, 0, 0], [1, 0, 0], [0, 1, 0]] [] [[1, 2, 3]] [])).2.1
  · exact ((remove_elements_selective false false false true
      (sample_state [[9, 9, 9], [0, 0, 0], [1, 0, 0], [0, 1, 0]] [] [[1, 2, 3]] [])).2.2.2.2.2.2.2.1
      rfl).1
  · rw [((remove_elements_selective false true false true
      (sample_state [[9, 9, 9], [0, 0, 0], [1, 0, 0], [0, 1, 0]] [] [[1, 2, 3]] [])).2.2.2.2.2.2.2.1
      rfl).1]
    rfl

/-- Witness for C5: the default unit cube on an empty mesh of dimension 3. -/
theorem create_cube_builds_box_witness :
    3 ≤ (sample_state [] [] [] []).mesh.dimension ∧
    (MeshShapesCommands.create_cube_elements 0 0 0 1 1 1
        (MeshCommands.begin (sample_state [] [] [] [])).mesh).vertices =
      (sample_state [] [] [] []).mesh.vertices ++ box_corners 0 0 0 1 1 1 :=
  ⟨by decide,
   (create_cube_builds_box (sample_library 1 1) 0 0 0 1 1 1 (sample_state [] [] [] [])
      (by decide)).2.1⟩

/-- Witness for C6: the icosahedron appended to a mesh of dimension 3 that holds one
triangle. -/
theorem create_icosahedron_builds_closed_surface_witness :
    3 ≤ (sample_state [[0, 0, 0], [1, 0, 0], [0, 1, 0]] [] [[0, 1, 2]] []).mesh.dimension ∧
    (MeshShapesCommands.create_icosahedron_elements (MeshCommands.begin
        (sample_state [[0, 0, 0], [1, 0, 0], [0, 1, 0]] [] [[0, 1, 2]] [])).mesh).vertices =
      (sample_state [[0, 0, 0], [1, 0, 0], [0, 1, 0]] [] [[0, 1, 2]] []).mesh.vertices ++
        (List.range 12).map point_row :=
  ⟨by decide,
   (create_icosahedron_builds_closed_surface (sample_library 1 1)
      (sample_state [[0, 0, 0], [1, 0, 0], [0, 1, 0]] [] [[0, 1, 2]] []) (by decide)).2.1⟩

/-- C7: `repair_surface` at its default arguments, on the triangle `(0,0,0)`, `(3,0,0)`,
`(0,4,0)` of area 6 and bounding-box diagonal 5: the area threshold handed to
`remove_small_connected_components` is `0.03 * 6 = 0.18` and the hole area handed to
`fill_holes` is `0.001 * 6 = 0.006`, the given numbers times the area, not the given
percentages of the area (`0.0018` and `0.00006`); the merging tolerance, in percent of the
diagonal, does get the factor `0.01`. -/
theorem repair_surface_area_arguments_at_defaults :
    (MeshSurfaceCommands.repair_surface (sample_library 5 6) 0.000001 0.03 0.001 2000 0 false
        (sample_state [[0, 0, 0], [3, 0, 0], [0, 4, 0]] [] [[0, 1, 2]] [])).calls =
      [Call.mesh_repair (0.000001 * 5 / 100),
       Call.remove_small_connected_components 0.18,
       Call.fill_holes 0.006 2000,
       Call.orient_normals,
       Call.set_mesh (sample_state [[0, 0, 0], [3, 0, 0], [0, 4, 0]] [] [[0, 1, 2]] []).mesh] ∧
    (0.18 : ℚ) ≠ 0.03 * 6 / 100 ∧ (0.006 : ℚ) ≠ 0.001 * 6 / 100 := by
  refine ⟨?_, by norm_num, by norm_num⟩
  simp [MeshSurfaceCommands.repair_surface, MeshCommands.begin, MeshCommands.end_, State.run,
    State.emit, sample_library, sample_state, Mesh.set_double_precision,
    Mesh.set_single_precision]
  norm_num
  simp

end Vorpaview
